import Mathlib

/-!
Shallow embedding of the `loa` battle-simulation core
(`src/loa/team.py`, `src/loa/simulator.py`).

Python machine details are modelled as follows: numeric unit stats are
rationals (the Python code works with `int`/`float` values and the spec
states real-number intent, with an explicit 4-digit rounding step where
floating point could matter); in-place mutation becomes explicit state
passing; code paths that `raise` return `Option CheckError` (`none` =
no exception) or `Except CheckError _`.
-/

set_option autoImplicit false

namespace Loa

/-- Modelled from the spec: the combatant class (`loa/unit.py` is not part
of the provided sources). A combatant carries an identity (`name`), a
recorded slot position (`pos`), immutable base stats `HP`/`ATT`/`ARM`/`EVS`
and current mutable stats `hp`/`att`/`arm`/`evs`; it supports value
equality over all fields. Ordinary combatant objects are truthy in Python,
so only the empty marker `None` (here `Option.none`) is falsy. -/
structure Unit where
  name : String
  pos : Nat
  HP : ℚ
  ATT : ℚ
  ARM : ℚ
  EVS : ℚ
  hp : ℚ
  att : ℚ
  arm : ℚ
  evs : ℚ
  deriving DecidableEq, Repr

/-- `Team` (src/loa/team.py): a name and a fixed-length ordered list of
slots, each holding a combatant or the empty marker `None`. -/
structure Team where
  name : String
  units : List (Option Unit)
  deriving DecidableEq, Repr

/-- `Team.__len__` (team.py line 47): counts the truthy (occupied) slots,
`len(list(filter(lambda x: x, self._units)))`. -/
def teamLen (t : Team) : Nat :=
  (t.units.filter (fun s => s.isSome)).length

/-- `Team.num_positions` (team.py line 81): the total slot count,
`len(self._units)`. -/
def numPositions (t : Team) : Nat :=
  t.units.length

/-- The set of occupied combatants of a team (the spec's notion used to
state order-independent set-equality). -/
def occupied (t : Team) : Finset Unit :=
  t.units.reduceOption.toFinset

/-- `Team.__eq__` (team.py lines 56-60), embedded exactly as written:

    set_team1 = set(self.units)
    set_team2 = set(self.units)
    return set_team1 == set_team2

Both sets are built from `self.units`; the parameter `other` is never
used. -/
def teamEq (self other : Team) : Bool :=
  let setTeam1 := self.units.toFinset
  let setTeam2 := self.units.toFinset
  decide (setTeam1 = setTeam2)

/-- `Team.__ne__` (team.py lines 63-64): `not self.__eq__(other)`. -/
def teamNe (self other : Team) : Bool :=
  ! teamEq self other

/-- The errors the embedded checks can raise. Each constructor stands for
one `raise` site; the Python exception classes and messages are noted:
* `numUnits`, `unitMaxEvs`, `sumHpAttArm`, `sumEvsDivArm`, `unitMaxAtt`,
  `unitMinHp`, `unitEvsNonzero`, `unitSumHpAtt15Arm`: the round-specific
  eligibility `ValueError`s of `TeamExaminer._check_constraints`;
* `zeroDivision`: Python's `ZeroDivisionError` from
  `float(unit.evs) / float(unit.arm)` when `unit.arm == 0`;
* `attrNone`: Python's `AttributeError` from reading a stat off `None`
  when a constraint loop meets an empty slot;
* `nameWhitespace`: the `ValueError` of `_check_name`;
* `badPosition`: the `ValueError` of `_check_positions`;
* `sizeChanged` / `mutatedUnits`: the two `TeamConsistencyError`s of
  `_check_consistency`;
* `arrangeTimeout`: the `ArrangeTimeoutError` of `_check_arrange`;
* `sizeMismatch`: the `ValueError` of `Simulator.play` for teams of
  unequal size. -/
inductive CheckError where
  | numUnits
  | unitMaxEvs
  | sumHpAttArm
  | sumEvsDivArm
  | unitMaxAtt
  | unitMinHp
  | unitEvsNonzero
  | unitSumHpAtt15Arm
  | zeroDivision
  | attrNone
  | nameWhitespace
  | badPosition
  | sizeChanged
  | mutatedUnits
  | arrangeTimeout
  | sizeMismatch
  deriving DecidableEq, Repr

/-- Python's `round` ties-to-even behaviour on an exact rational input:
round half to even at integer precision. -/
def pyRound (x : ℚ) : ℤ :=
  let f := Int.floor x
  let r := x - (f : ℚ)
  if r < 1/2 then f
  else if 1/2 < r then f + 1
  else if f % 2 = 0 then f else f + 1

/-- `round(x, 4)`: rounding to 4 decimal digits, as used by the round-01
aggregate comparisons. -/
def round4 (x : ℚ) : ℚ :=
  (pyRound (x * 10000) : ℚ) / 10000

/-- The `ROUND-01` numeric thresholds of the constraint configuration
(`constraints.yml`, an external read-only input of the core). -/
structure Round01Cons where
  NUM_UNITS : Nat
  UNIT_MAX_EVS : ℚ
  SUM_HP_ATT_ARM : ℚ
  SUM_UNIT_EVS_DIV_ARM : ℚ

/-- The `ROUND-02` numeric thresholds. `UNIT_MAX_EVS` is read by the
source but never used by the round-02 checks (the evasion comparison is
hard-coded against zero). -/
structure Round02Cons where
  NUM_UNITS : Nat
  UNIT_MAX_ATT : ℚ
  UNIT_MIN_HP : ℚ
  UNIT_MAX_EVS : ℚ
  UNIT_SUM_HP_ATT_1d5ARM : ℚ

/-- The per-unit loop of the round-01 branch of
`TeamExaminer._check_constraints` (team.py lines 243-263): accumulates
`sum_hp`, `sum_att`, `sum_arm` and `sum_unit_evs_div_arm` over the slots,
raising on a unit whose `evs` exceeds the per-unit ceiling, on an empty
slot (attribute access on `None`), and on `evs / arm` when `arm == 0`. -/
def round01Loop (maxEvs : ℚ) :
    List (Option Unit) → ℚ → ℚ → ℚ → ℚ → Except CheckError (ℚ × ℚ × ℚ × ℚ)
  | [], sumHp, sumAtt, sumArm, sumEvsDivArm =>
      .ok (sumHp, sumAtt, sumArm, sumEvsDivArm)
  | none :: _, _, _, _, _ => .error .attrNone
  | some u :: rest, sumHp, sumAtt, sumArm, sumEvsDivArm =>
      if maxEvs < u.evs then .error .unitMaxEvs
      else if u.arm = 0 then .error .zeroDivision
      else round01Loop maxEvs rest (sumHp + u.hp) (sumAtt + u.att)
             (sumArm + u.arm) (sumEvsDivArm + u.evs / u.arm)

/-- The round-01 branch of `TeamExaminer._check_constraints`
(team.py lines 229-288): check the living-unit count, run the per-unit
loop, then compare the rounded aggregates against the ceilings. -/
def checkRound01 (c : Round01Cons) (t : Team) : Option CheckError :=
  if teamLen t ≠ c.NUM_UNITS then some .numUnits
  else
    match round01Loop c.UNIT_MAX_EVS t.units 0 0 0 0 with
    | .error e => some e
    | .ok (sumHp, sumAtt, sumArm, sumEvsDivArm) =>
        if c.SUM_HP_ATT_ARM < round4 (sumHp + sumAtt + sumArm) then
          some .sumHpAttArm
        else if c.SUM_UNIT_EVS_DIV_ARM < round4 sumEvsDivArm then
          some .sumEvsDivArm
        else none

/-- The per-unit loop of the round-02 branch of
`TeamExaminer._check_constraints` (team.py lines 306-352): per unit, the
base-attack ceiling, the base-hit-point floor, the `evs > 0` check and the
`HP + ATT + 1.5*ARM` ceiling, in that order. -/
def round02Loop (c : Round02Cons) : List (Option Unit) → Option CheckError
  | [] => none
  | none :: _ => some .attrNone
  | some u :: rest =>
      if c.UNIT_MAX_ATT < u.ATT then some .unitMaxAtt
      else if u.HP < c.UNIT_MIN_HP then some .unitMinHp
      else if 0 < u.evs then some .unitEvsNonzero
      else if c.UNIT_SUM_HP_ATT_1d5ARM < u.HP + u.ATT + (3/2) * u.ARM then
        some .unitSumHpAtt15Arm
      else round02Loop c rest

/-- The round-02 branch of `TeamExaminer._check_constraints`
(team.py lines 290-352). -/
def checkRound02 (c : Round02Cons) (t : Team) : Option CheckError :=
  if teamLen t ≠ c.NUM_UNITS then some .numUnits
  else round02Loop c t.units

/-- `TeamExaminer._check_consistency` (team.py lines 401-417): the
living-unit-count comparison raises the SizeChanged consistency error,
then the `origin != copied` comparison (through the `Team.__ne__` /
`Team.__eq__` pair embedded above) raises the MutatedUnits consistency
error. -/
def checkConsistency (origin copied : Team) : Option CheckError :=
  if teamLen origin ≠ teamLen copied then some .sizeChanged
  else if teamNe origin copied then some .mutatedUnits
  else none

/-- `TeamExaminer._check_name` (team.py lines 168-172): the name must not
be whitespace-only (nor empty: `len(name.split()) == 0`). -/
def checkName (t : Team) : Option CheckError :=
  if t.name.toList.all (fun ch => ch.isWhitespace) then some .nameWhitespace
  else none

/-- The indexed loop of `TeamExaminer._check_positions`
(team.py lines 202-207): every occupied slot `i` must hold a unit whose
recorded `pos` equals `i`. -/
def checkPositionsFrom : Nat → List (Option Unit) → Option CheckError
  | _, [] => none
  | i, none :: rest => checkPositionsFrom (i + 1) rest
  | i, some u :: rest =>
      if u.pos ≠ i then some .badPosition
      else checkPositionsFrom (i + 1) rest

/-- `TeamExaminer._check_positions` (team.py lines 202-207). -/
def checkPositions (t : Team) : Option CheckError :=
  checkPositionsFrom 0 t.units

/-- `TeamExaminer._check_arrange` (team.py lines 371-398), with the
untrusted arrangement hook modelled as a pure function `f` from the
(offense, defense) states to the post-arrangement offense state, and its
wall-clock cost as a parameter `cost`: the hook runs on deep copies (value
copies here), the elapsed time is compared against the limit, then the
live offense is compared against the mutated copy by
`_check_consistency`. -/
def checkArrange (f : Team → Team → Team) (cost tLimit : ℚ)
    (offense defense : Team) : Option CheckError :=
  let offenseCpy := f offense defense
  if tLimit < cost then some .arrangeTimeout
  else checkConsistency offense offenseCpy

/-- `TeamExaminer.check_play` (team.py lines 121-138) as it acts on the
embedded state: the type- and attribute-presence checks are vacuous in a
typed model, leaving the name checks, the position checks and
`_check_arrange`. -/
def checkPlayModel (f : Team → Team → Team) (cost tLimit : ℚ)
    (offense defense : Team) : Option CheckError :=
  checkName offense <|> checkName defense <|>
  checkPositions offense <|> checkPositions defense <|>
  checkArrange f cost tLimit offense defense

/-- The body of `Simulator._clear_dead_units` (simulator.py lines
102-109): walk the slots in order; a falsy slot (`None`) is skipped; a
combatant with `hp <= 0` has its slot set to `None`. -/
def clearDeadLoop : List (Option Unit) → List (Option Unit)
  | [] => []
  | none :: rest => none :: clearDeadLoop rest
  | some u :: rest =>
      (if u.hp ≤ 0 then none else some u) :: clearDeadLoop rest

/-- `Simulator._clear_dead_units` (simulator.py lines 102-109). -/
def clearDeadUnits (t : Team) : Team :=
  { t with units := clearDeadLoop t.units }

/-- The size gate at the top of `Simulator.play` (simulator.py lines
37-40): `if len(team1) != len(team2): raise ValueError(...)`. -/
def playSizeCheck (team1 team2 : Team) : Option CheckError :=
  if teamLen team1 ≠ teamLen team2 then some .sizeMismatch
  else none

/-- One turn of the match loop of `Simulator.play` (simulator.py lines
55-73): `check_play` (which rehearses the arrangement hook on deep
copies under the guards), then the live arrangement call
`offense.arrange(copy.deepcopy(defense))`, then `_apply_attack` and the
clearing of dead units on both sides. The combat step is the abstract
collaborator `applyAttack`. -/
def playTurn (f : Team → Team → Team) (cost tLimit : ℚ)
    (applyAttack : Team → Team → Team × Team)
    (offense defense : Team) : Except CheckError (Team × Team) :=
  match checkPlayModel f cost tLimit offense defense with
  | some e => .error e
  | none =>
      let offenseArr := f offense defense
      let fought := applyAttack offenseArr defense
      .ok (clearDeadUnits fought.1, clearDeadUnits fought.2)

/-- The per-trial tally bookkeeping of `Simulator.play` (simulator.py
lines 42-96): one judge verdict (a winner name) per repeat; a verdict
equal to team1's name increments `num_wins_team1`, else one equal to
team2's name increments `num_wins_team2`, else `num_draws` is
incremented. -/
def playTallies (name1 name2 : String) : List String → Nat × Nat × Nat
  | [] => (0, 0, 0)
  | winner :: rest =>
      let r := playTallies name1 name2 rest
      if winner = name1 then (r.1 + 1, r.2.1, r.2.2)
      else if winner = name2 then (r.1, r.2.1 + 1, r.2.2)
      else (r.1, r.2.1, r.2.2 + 1)

/-- `EvasionSimulator._try_evasion` (simulator.py lines 153-160):
`evsr = target.evs / 100.`, one uniform draw `rn`, evade exactly when
`rn <= evsr`. The draw is the parameter `rn`. -/
def tryEvasion (target : Unit) (rn : ℚ) : Bool :=
  rn ≤ target.evs / 100

/-! Concrete combatants used as test inputs. -/

def unitA : Unit := ⟨"A", 0, 10, 5, 5, 0, 10, 5, 5, 0⟩

def unitB : Unit := ⟨"B", 0, 8, 4, 4, 0, 8, 4, 4, 0⟩

def unitC : Unit := ⟨"C", 0, 6, 3, 3, 0, 6, 3, 3, 0⟩

def unitEvs100 : Unit := ⟨"E", 0, 10, 5, 5, 100, 10, 5, 5, 100⟩

/-- A combatant whose current hit points have reached zero. -/
def unitDead : Unit := ⟨"D", 0, 10, 5, 5, 0, 0, 5, 5, 0⟩

/-- Round-01 test combatant: hp 10, att 5, arm 5 (aggregate 20), evs 1. -/
def u01a : Unit := ⟨"a", 0, 10, 5, 5, 1, 10, 5, 5, 1⟩

/-- Round-01 test combatant: hp 11, att 5, arm 5 (aggregate 21), evs 1. -/
def u01b : Unit := ⟨"b", 0, 11, 5, 5, 1, 11, 5, 5, 1⟩

/-- Round-01 test combatant with armor 0. -/
def uZeroArm : Unit := ⟨"z", 0, 10, 5, 0, 1, 10, 5, 0, 1⟩

/-- Round-02 test combatant with a strictly negative evasion stat. -/
def uNegEvs : Unit := ⟨"n", 0, 10, 5, 5, -1, 10, 5, 5, -1⟩

/-- The round-01 thresholds named by the spec:
`{NUM_UNITS=10, UNIT_MAX_EVS=10, SUM_HP_ATT_ARM=200, SUM_EVS_DIV_ARM=5}`. -/
def cons01 : Round01Cons := ⟨10, 10, 200, 5⟩

/-- A concrete round-02 threshold assignment used as test input. -/
def cons02x : Round02Cons := ⟨1, 10, 1, 10, 100⟩

/-- The sum of one current stat over a team's occupied slots. -/
def sumStat (f : Unit → ℚ) (t : Team) : ℚ :=
  (t.units.reduceOption.map f).sum

/-- A 10-unit team whose aggregate (hp + att + arm) is 201. -/
def t201 : Team :=
  ⟨"T201", [some u01b, some u01a, some u01a, some u01a, some u01a,
            some u01a, some u01a, some u01a, some u01a, some u01a]⟩

/-- A 10-unit team whose aggregate (hp + att + arm) is exactly 200. -/
def t200 : Team :=
  ⟨"T200", [some u01a, some u01a, some u01a, some u01a, some u01a,
            some u01a, some u01a, some u01a, some u01a, some u01a]⟩

/-- A 10-unit team containing one combatant with armor 0. -/
def tZeroArm : Team :=
  ⟨"TZ", [some u01a, some u01a, some u01a, some u01a, some u01a,
          some u01a, some u01a, some u01a, some u01a, some uZeroArm]⟩

/-- Claim C1: the source's `_check_consistency` does not raise on a
before-snapshot and a live team of equal living-unit count but different
occupied-combatant membership — the MutatedUnits branch never fires,
because `Team.__eq__` compares `set(self.units)` against itself; a pure
reorder also passes (as the claim says). -/
theorem checkConsistency_misses_mutated_units :
    teamLen ⟨"T1", [some unitA]⟩ = teamLen ⟨"T1", [some unitB]⟩ ∧
    occupied ⟨"T1", [some unitA]⟩ ≠ occupied ⟨"T1", [some unitB]⟩ ∧
    checkConsistency ⟨"T1", [some unitA]⟩ ⟨"T1", [some unitB]⟩ = none ∧
    checkConsistency ⟨"T1", [some unitA, some unitB]⟩
      ⟨"T1", [some unitB, some unitA]⟩ = none := by
  decide

/-- Claim C2: `Team.__eq__` answers `True` even for two teams whose
occupied-combatant sets differ, since it compares `set(self.units)`
against `set(self.units)` and never reads `other`. -/
theorem teamEq_ignores_other :
    teamEq ⟨"T1", [some unitA]⟩ ⟨"T2", [some unitB]⟩ = true ∧
    occupied ⟨"T1", [some unitA]⟩ ≠ occupied ⟨"T2", [some unitB]⟩ := by
  decide

/-- Claim C3: the tallies returned by `Simulator.play` always satisfy
`num_wins_team1 + num_wins_team2 + num_draws = num_repeats` — exactly one
tally is incremented per trial verdict. -/
theorem playTallies_sum (name1 name2 : String) (winners : List String) :
    (playTallies name1 name2 winners).1 +
      (playTallies name1 name2 winners).2.1 +
      (playTallies name1 name2 winners).2.2 = winners.length := by
  induction winners with
  | nil => rfl
  | cons w rest ih =>
      by_cases h1 : w = name1
      · subst h1
        simp [playTallies]
        omega
      · by_cases h2 : w = name2
        · subst h2
          simp [playTallies, h1]
          omega
        · simp [playTallies, h1, h2]
          omega

/-- Claim C4, counterexample: at evasion stat 0 the gate does evade on
the draw 0, which lies in `[0, 1)` — `rn <= evsr` is `0 <= 0`. -/
theorem tryEvasion_zero_draw_zero_evades :
    unitA.evs = 0 ∧ (0:ℚ) ≤ 0 ∧ (0:ℚ) < 1 ∧ tryEvasion unitA 0 = true := by
  refine ⟨rfl, le_refl 0, by norm_num, ?_⟩
  norm_num [tryEvasion, unitA]

/-- Claim C4, amended: with evasion 0 the gate returns false for every
draw in `(0, 1)` (evading only on the exact-zero draw); with evasion 100
it returns true for every draw in `[0, 1)`; in general it evades exactly
when the draw is at most `evs / 100`. -/
theorem tryEvasion_spec (u : Unit) (rn : ℚ) :
    (u.evs = 0 → 0 < rn → rn < 1 → tryEvasion u rn = false) ∧
    (u.evs = 100 → 0 ≤ rn → rn < 1 → tryEvasion u rn = true) ∧
    (tryEvasion u rn = true ↔ rn ≤ u.evs / 100) := by
  refine ⟨?_, ?_, ?_⟩
  · intro h0 hpos _
    simp only [tryEvasion, h0, zero_div, decide_eq_false_iff_not, not_le]
    exact hpos
  · intro h0 _ hlt
    simp only [tryEvasion, h0, decide_eq_true_eq]
    norm_num
    linarith
  · simp [tryEvasion]

/-- Witness for `tryEvasion_spec` at the draw `1/2` with the evasion-0
combatant `unitA` and the evasion-100 combatant `unitEvs100`. -/
theorem tryEvasion_spec_witness :
    tryEvasion unitA (1/2) = false ∧ tryEvasion unitEvs100 (1/2) = true :=
  ⟨(tryEvasion_spec unitA (1/2)).1 rfl (by norm_num) (by norm_num),
   (tryEvasion_spec unitEvs100 (1/2)).2.1 rfl (by norm_num) (by norm_num)⟩

/-- Claim C5, counterexample: the size gate of `Simulator.play` compares
living-unit counts, not slot counts — two teams of unequal slot count but
equal living-unit count pass without a SizeMismatch error. -/
theorem playSizeCheck_ignores_slot_count :
    numPositions ⟨"T1", [some unitA]⟩ ≠ numPositions ⟨"T2", [some unitB, none]⟩ ∧
    playSizeCheck ⟨"T1", [some unitA]⟩ ⟨"T2", [some unitB, none]⟩ = none := by
  decide

/-- Claim C5, amended: `Simulator.play` raises its SizeMismatch error if
and only if the two teams' living-unit counts (`Team.__len__`, the count
of occupied slots) are unequal, and proceeds exactly when they are
equal. -/
theorem playSizeCheck_iff (t1 t2 : Team) :
    (playSizeCheck t1 t2 = some .sizeMismatch ↔ teamLen t1 ≠ teamLen t2) ∧
    (playSizeCheck t1 t2 = none ↔ teamLen t1 = teamLen t2) := by
  unfold playSizeCheck
  by_cases h : teamLen t1 = teamLen t2 <;> simp [h]

/-- Claim C8: the arrangement call that mutates the live offense is not
the one under the guards. A hook that swaps the offense's only combatant
for a fresh one (equal living-unit count, different membership) sails
through `check_play` — the guarded rehearsal's MutatedUnits comparison
never fires (`Team.__eq__` bug) — and the turn completes with combat
applied instead of raising a consistency error. -/
theorem playTurn_runs_combat_despite_swap :
    teamLen (⟨"T1", [some unitC]⟩ : Team) = teamLen ⟨"T1", [some unitA]⟩ ∧
    occupied (⟨"T1", [some unitC]⟩ : Team) ≠ occupied ⟨"T1", [some unitA]⟩ ∧
    playTurn (fun o _ => ⟨o.name, [some unitC]⟩) 0 10000
      (fun o d => (o, d)) ⟨"T1", [some unitA]⟩ ⟨"T2", [some unitB]⟩ =
      .ok (⟨"T1", [some unitC]⟩, ⟨"T2", [some unitB]⟩) :=
  ⟨by decide, by decide, by rfl⟩

/-- Rounding to 4 decimal digits is the identity on integers. -/
lemma round4_intCast (n : ℤ) : round4 (n : ℚ) = n := by
  have h1 : ((n : ℚ) * 10000) = ((n * 10000 : ℤ) : ℚ) := by push_cast; ring
  simp only [round4, pyRound, h1, Int.floor_intCast, sub_self]
  norm_num

/-- The round-01 per-unit loop completes and returns the four running
sums when every slot is occupied, and every unit passes the per-unit
evasion ceiling and has nonzero armor. -/
lemma round01Loop_ok (maxEvs : ℚ) :
    ∀ (l : List (Option Unit)), (∀ s ∈ l, s.isSome = true) →
      (∀ v ∈ l.reduceOption, v.evs ≤ maxEvs ∧ v.arm ≠ 0) →
      ∀ (sh sa sr se : ℚ),
      round01Loop maxEvs l sh sa sr se =
        .ok (sh + (l.reduceOption.map Unit.hp).sum,
             sa + (l.reduceOption.map Unit.att).sum,
             sr + (l.reduceOption.map Unit.arm).sum,
             se + (l.reduceOption.map (fun v => v.evs / v.arm)).sum) := by
  intro l
  induction l with
  | nil => intro _ _ sh sa sr se; simp [round01Loop]
  | cons s rest ih =>
      intro hsome hcond sh sa sr se
      cases s with
      | none => exact absurd (hsome none (by simp)) (by simp)
      | some u =>
          have hu : u.evs ≤ maxEvs ∧ u.arm ≠ 0 := hcond u (by simp)
          have hrest1 : ∀ s ∈ rest, s.isSome = true :=
            fun s hs => hsome s (by simp [hs])
          have hrest2 : ∀ v ∈ rest.reduceOption, v.evs ≤ maxEvs ∧ v.arm ≠ 0 :=
            fun v hv => hcond v (by simp [hv])
          simp only [round01Loop, if_neg (not_lt.mpr hu.1), if_neg hu.2,
            ih hrest1 hrest2 (sh + u.hp) (sa + u.att) (sr + u.arm)
              (se + u.evs / u.arm),
            List.reduceOption_cons_of_some, List.map_cons, List.sum_cons]
          simp [add_assoc]

/-- If every slot is occupied, every unit passes the per-unit evasion
ceiling, and some unit has armor 0, the round-01 per-unit loop raises
the division-by-zero error. -/
lemma round01Loop_zeroDiv (maxEvs : ℚ) :
    ∀ (l : List (Option Unit)), (∀ s ∈ l, s.isSome = true) →
      (∀ v ∈ l.reduceOption, v.evs ≤ maxEvs) →
      (∃ v ∈ l.reduceOption, v.arm = 0) →
      ∀ (sh sa sr se : ℚ),
      round01Loop maxEvs l sh sa sr se = .error .zeroDivision := by
  intro l
  induction l with
  | nil => intro _ _ hex; simp at hex
  | cons s rest ih =>
      intro hsome hevs hex sh sa sr se
      cases s with
      | none => exact absurd (hsome none (by simp)) (by simp)
      | some u =>
          have hu : u.evs ≤ maxEvs := hevs u (by simp)
          simp only [round01Loop, if_neg (not_lt.mpr hu)]
          by_cases hz : u.arm = 0
          · rw [if_pos hz]
          · rw [if_neg hz]
            have hrest1 : ∀ s ∈ rest, s.isSome = true :=
              fun s hs => hsome s (by simp [hs])
            have hrest2 : ∀ v ∈ rest.reduceOption, v.evs ≤ maxEvs :=
              fun v hv => hevs v (by simp [hv])
            have hrest3 : ∃ v ∈ rest.reduceOption, v.arm = 0 := by
              obtain ⟨v, hv, hva⟩ := hex
              simp only [List.reduceOption_cons_of_some, List.mem_cons] at hv
              rcases hv with hv | hv
              · exact absurd (hv ▸ hva) hz
              · exact ⟨v, hv, hva⟩
            exact ih hrest1 hrest2 hrest3 _ _ _ _

/-- Claim C6: with the round-01 thresholds `{NUM_UNITS=10,
UNIT_MAX_EVS=10, SUM_HP_ATT_ARM=200, SUM_EVS_DIV_ARM=5}`, a 10-unit team
whose aggregate (hp + att + arm) is 201 fails the aggregate-stat check,
and a 10-unit team whose aggregate is exactly 200 does not fail that
check (the sums being compared after rounding to 4 decimal digits). -/
theorem checkRound01_sum_hp_att_arm (t u : Team)
    (ht0 : ∀ s ∈ t.units, s.isSome = true)
    (ht1 : teamLen t = 10)
    (ht2 : ∀ v ∈ t.units.reduceOption, v.evs ≤ 10 ∧ v.arm ≠ 0)
    (ht3 : sumStat Unit.hp t + sumStat Unit.att t + sumStat Unit.arm t = 201)
    (hu0 : ∀ s ∈ u.units, s.isSome = true)
    (hu1 : teamLen u = 10)
    (hu2 : ∀ v ∈ u.units.reduceOption, v.evs ≤ 10 ∧ v.arm ≠ 0)
    (hu3 : sumStat Unit.hp u + sumStat Unit.att u + sumStat Unit.arm u = 200) :
    checkRound01 cons01 t = some .sumHpAttArm ∧
    checkRound01 cons01 u ≠ some .sumHpAttArm := by
  simp only [sumStat] at ht3 hu3
  constructor
  · unfold checkRound01
    rw [if_neg (by simp [ht1, cons01]),
      round01Loop_ok cons01.UNIT_MAX_EVS t.units ht0 ht2 0 0 0 0]
    simp only [zero_add]
    have h201 : (t.units.reduceOption.map Unit.hp).sum +
        (t.units.reduceOption.map Unit.att).sum +
        (t.units.reduceOption.map Unit.arm).sum = ((201 : ℤ) : ℚ) := by
      rw [ht3]; norm_num
    rw [h201, round4_intCast 201]
    norm_num [cons01]
  · unfold checkRound01
    rw [if_neg (by simp [hu1, cons01]),
      round01Loop_ok cons01.UNIT_MAX_EVS u.units hu0 hu2 0 0 0 0]
    simp only [zero_add]
    have h200 : (u.units.reduceOption.map Unit.hp).sum +
        (u.units.reduceOption.map Unit.att).sum +
        (u.units.reduceOption.map Unit.arm).sum = ((200 : ℤ) : ℚ) := by
      rw [hu3]; norm_num
    rw [h200, round4_intCast 200]
    have hle : ¬ (cons01.SUM_HP_ATT_ARM < ((200 : ℤ) : ℚ)) := by
      norm_num [cons01]
    rw [if_neg hle]
    split <;> simp

/-- Witness for `checkRound01_sum_hp_att_arm` at the concrete 10-unit
teams `t201` (aggregate 201) and `t200` (aggregate 200). -/
theorem checkRound01_sum_hp_att_arm_witness :
    checkRound01 cons01 t201 = some .sumHpAttArm ∧
    checkRound01 cons01 t200 ≠ some .sumHpAttArm :=
  checkRound01_sum_hp_att_arm t201 t200 (by decide) (by decide) (by decide)
    (by norm_num [sumStat, t201, u01a, u01b]) (by decide) (by decide)
    (by decide) (by norm_num [sumStat, t200, u01a])

/-- Claim C10: with the round-01 thresholds, a 10-unit team all of whose
units pass the per-unit evasion ceiling but one of which has armor 0
makes the constraint check raise the unguarded division-by-zero error
(from `evs / arm`) instead of a descriptive eligibility error. -/
theorem checkRound01_zero_armor (t : Team)
    (h0 : ∀ s ∈ t.units, s.isSome = true)
    (h1 : teamLen t = 10)
    (h2 : ∀ v ∈ t.units.reduceOption, v.evs ≤ 10)
    (h3 : ∃ v ∈ t.units.reduceOption, v.arm = 0) :
    checkRound01 cons01 t = some .zeroDivision := by
  unfold checkRound01
  rw [if_neg (by simp [h1, cons01]),
    round01Loop_zeroDiv cons01.UNIT_MAX_EVS t.units h0 h2 h3 0 0 0 0]

/-- Witness for `checkRound01_zero_armor` at the concrete team
`tZeroArm`, whose last combatant has armor 0. -/
theorem checkRound01_zero_armor_witness :
    checkRound01 cons01 tZeroArm = some .zeroDivision :=
  checkRound01_zero_armor tZeroArm (by decide) (by decide) (by decide)
    (by decide)

/-- The round-02 per-unit loop, on fully occupied slots whose units all
pass the attack ceiling, the hit-point floor and the per-unit aggregate
ceiling, succeeds exactly when no unit has a strictly positive evasion
stat. -/
lemma round02Loop_none_iff (c : Round02Cons) :
    ∀ (l : List (Option Unit)), (∀ s ∈ l, s.isSome = true) →
      (∀ v ∈ l.reduceOption,
        v.ATT ≤ c.UNIT_MAX_ATT ∧ c.UNIT_MIN_HP ≤ v.HP ∧
        v.HP + v.ATT + (3/2) * v.ARM ≤ c.UNIT_SUM_HP_ATT_1d5ARM) →
      (round02Loop c l = none ↔ ∀ v ∈ l.reduceOption, v.evs ≤ 0) := by
  intro l
  induction l with
  | nil => intro _ _; simp [round02Loop]
  | cons s rest ih =>
      intro hsome hcond
      cases s with
      | none => exact absurd (hsome none (by simp)) (by simp)
      | some u =>
          have hu := hcond u (by simp)
          have hrest1 : ∀ s ∈ rest, s.isSome = true :=
            fun s hs => hsome s (by simp [hs])
          have hrest2 : ∀ v ∈ rest.reduceOption,
              v.ATT ≤ c.UNIT_MAX_ATT ∧ c.UNIT_MIN_HP ≤ v.HP ∧
              v.HP + v.ATT + (3/2) * v.ARM ≤ c.UNIT_SUM_HP_ATT_1d5ARM :=
            fun v hv => hcond v (by simp [hv])
          simp only [round02Loop, if_neg (not_lt.mpr hu.1),
            if_neg (not_lt.mpr hu.2.1)]
          by_cases he : 0 < u.evs
          · rw [if_pos he]
            constructor
            · intro h; exact absurd h (by simp)
            · intro hall
              exact absurd (hall u (by simp)) (by simpa using he)
          · rw [if_neg he, if_neg (not_lt.mpr hu.2.2)]
            rw [ih hrest1 hrest2]
            simp [not_lt.mp he]

/-- Claim C7, counterexample: a round-02 team containing a unit with a
strictly negative (hence nonzero) evasion stat passes validation — the
source only rejects `evs > 0`. -/
theorem checkRound02_negative_evasion_passes :
    uNegEvs.evs ≠ 0 ∧
    checkRound02 cons02x ⟨"TN", [some uNegEvs]⟩ = none := by
  constructor
  · norm_num [uNegEvs]
  · norm_num [checkRound02, cons02x, round02Loop, teamLen, uNegEvs]

/-- Claim C7, amended: for round 02, on a team whose units all pass the
attack ceiling, the hit-point floor and the per-unit aggregate ceiling,
validation passes if and only if no unit's evasion stat is strictly
positive — a nonpositive (including negative) evasion stat is accepted,
while any strictly positive one is rejected. -/
theorem checkRound02_evasion_iff (c : Round02Cons) (t : Team)
    (h0 : ∀ s ∈ t.units, s.isSome = true)
    (h1 : teamLen t = c.NUM_UNITS)
    (h2 : ∀ v ∈ t.units.reduceOption,
      v.ATT ≤ c.UNIT_MAX_ATT ∧ c.UNIT_MIN_HP ≤ v.HP ∧
      v.HP + v.ATT + (3/2) * v.ARM ≤ c.UNIT_SUM_HP_ATT_1d5ARM) :
    (checkRound02 c t = none ↔ ∀ v ∈ t.units.reduceOption, v.evs ≤ 0) := by
  unfold checkRound02
  rw [if_neg (by simp [h1])]
  exact round02Loop_none_iff c t.units h0 h2

/-- Witness for `checkRound02_evasion_iff`: the one-unit team holding
`unitA` (evasion 0) passes round-02 validation. -/
theorem checkRound02_evasion_iff_witness :
    checkRound02 cons02x ⟨"TW", [some unitA]⟩ = none :=
  (checkRound02_evasion_iff cons02x ⟨"TW", [some unitA]⟩ (by decide)
    (by decide) (by norm_num [unitA, cons02x])).mpr (by decide)

/-- `clearDeadLoop` preserves the slot count. -/
lemma clearDeadLoop_length (l : List (Option Unit)) :
    (clearDeadLoop l).length = l.length := by
  induction l with
  | nil => rfl
  | cons s rest ih => cases s <;> simp [clearDeadLoop, ih]

/-- Slotwise description of `clearDeadLoop`. -/
lemma clearDeadLoop_get :
    ∀ (l : List (Option Unit)) (i : Nat) (h : i < l.length)
      (h' : i < (clearDeadLoop l).length),
      (clearDeadLoop l).get ⟨i, h'⟩ =
        match l.get ⟨i, h⟩ with
        | none => none
        | some u => if u.hp ≤ 0 then none else some u
  | s :: _, 0, _, _ => by cases s <;> rfl
  | s :: rest, i + 1, h, h' => by
      cases s with
      | none =>
          exact clearDeadLoop_get rest i (by simpa using h)
            (by simpa [clearDeadLoop] using h')
      | some u =>
          exact clearDeadLoop_get rest i (by simpa using h)
            (by simpa [clearDeadLoop] using h')

/-- Claim C9: after `_clear_dead_units`, the slot count is unchanged;
every slot that held a combatant with hit points at most 0 is empty; a
slot holding a combatant with positive hit points is unchanged; an empty
slot is unchanged. -/
theorem clearDeadUnits_frame (t : Team) (i : Nat) (h : i < t.units.length)
    (h' : i < (clearDeadUnits t).units.length) :
    ((clearDeadUnits t).units.length = t.units.length) ∧
    (∀ v, t.units.get ⟨i, h⟩ = some v → v.hp ≤ 0 →
      (clearDeadUnits t).units.get ⟨i, h'⟩ = none) ∧
    (∀ v, t.units.get ⟨i, h⟩ = some v → 0 < v.hp →
      (clearDeadUnits t).units.get ⟨i, h'⟩ = t.units.get ⟨i, h⟩) ∧
    (t.units.get ⟨i, h⟩ = none →
      (clearDeadUnits t).units.get ⟨i, h'⟩ = t.units.get ⟨i, h⟩) := by
  have hget := clearDeadLoop_get t.units i h h'
  refine ⟨clearDeadLoop_length t.units, ?_, ?_, ?_⟩
  · intro v hv hle
    show (clearDeadLoop t.units).get ⟨i, h'⟩ = none
    rw [hget, hv]
    simp [hle]
  · intro v hv hpos
    show (clearDeadLoop t.units).get ⟨i, h'⟩ = t.units.get ⟨i, h⟩
    rw [hget, hv]
    simp [not_le.mpr hpos]
  · intro hv
    show (clearDeadLoop t.units).get ⟨i, h'⟩ = t.units.get ⟨i, h⟩
    rw [hget, hv]

/-- Witness for `clearDeadUnits_frame`: in a two-slot team whose first
combatant has hit points 0, the first slot is cleared. -/
theorem clearDeadUnits_frame_witness :
    (clearDeadUnits ⟨"T", [some unitDead, some unitA]⟩).units.get
      ⟨0, by decide⟩ = none :=
  (clearDeadUnits_frame ⟨"T", [some unitDead, some unitA]⟩ 0 (by decide)
    (by decide)).2.1 unitDead rfl (by decide)

end Loa
